import Mathlib

/-!
Verification development for the wost-go Web-of-Things client library.

The Go sources are shallowly embedded: Go maps become association lists
(`List (String × _)`), JSON wire payloads become a `Bytes` value that is either
a well-formed JSON tree or malformed raw text, Go `error` results become
`Option GoError` (`none` = the nil error), pointer-typed handler functions
become opaque `Handler` references, and methods that mutate a receiver become
functions returning the updated record.  Go numbers are modelled as integers
(the claims only involve integral payloads) and Go map iteration is modelled
in list order (the claims only involve single-entry maps where order is moot).
-/

/-- JSON value trees, standing for both Go `interface{}` native data and decoded
wire payloads. Objects are association lists in field order. -/
inductive Json where
  | null
  | bool (b : Bool)
  | num (n : Int)
  | str (s : String)
  | arr (elems : List Json)
  | obj (fields : List (String × Json))

mutual

/-- Decidable equality for JSON trees (the derive handler does not support the
nesting through lists, so the three functions are written out mutually). -/
def Json.decEq : (a b : Json) → Decidable (a = b)
  | .null, .null => isTrue rfl
  | .bool x, .bool y =>
    if h : x = y then isTrue (by rw [h]) else isFalse (fun hc => by cases hc; exact h rfl)
  | .num x, .num y =>
    if h : x = y then isTrue (by rw [h]) else isFalse (fun hc => by cases hc; exact h rfl)
  | .str x, .str y =>
    if h : x = y then isTrue (by rw [h]) else isFalse (fun hc => by cases hc; exact h rfl)
  | .arr xs, .arr ys =>
    match Json.decEqList xs ys with
    | isTrue h => isTrue (by rw [h])
    | isFalse h => isFalse (fun hc => by cases hc; exact h rfl)
  | .obj xs, .obj ys =>
    match Json.decEqFields xs ys with
    | isTrue h => isTrue (by rw [h])
    | isFalse h => isFalse (fun hc => by cases hc; exact h rfl)
  | .null, .bool _ | .null, .num _ | .null, .str _ | .null, .arr _ | .null, .obj _ =>
    isFalse (fun hc => by cases hc)
  | .bool _, .null | .bool _, .num _ | .bool _, .str _ | .bool _, .arr _ | .bool _, .obj _ =>
    isFalse (fun hc => by cases hc)
  | .num _, .null | .num _, .bool _ | .num _, .str _ | .num _, .arr _ | .num _, .obj _ =>
    isFalse (fun hc => by cases hc)
  | .str _, .null | .str _, .bool _ | .str _, .num _ | .str _, .arr _ | .str _, .obj _ =>
    isFalse (fun hc => by cases hc)
  | .arr _, .null | .arr _, .bool _ | .arr _, .num _ | .arr _, .str _ | .arr _, .obj _ =>
    isFalse (fun hc => by cases hc)
  | .obj _, .null | .obj _, .bool _ | .obj _, .num _ | .obj _, .str _ | .obj _, .arr _ =>
    isFalse (fun hc => by cases hc)

/-- Decidable equality for JSON array elements. -/
def Json.decEqList : (as bs : List Json) → Decidable (as = bs)
  | [], [] => isTrue rfl
  | [], _ :: _ => isFalse (fun hc => by cases hc)
  | _ :: _, [] => isFalse (fun hc => by cases hc)
  | x :: xs, y :: ys =>
    match Json.decEq x y with
    | isFalse h => isFalse (fun hc => by cases hc; exact h rfl)
    | isTrue h1 =>
      match Json.decEqList xs ys with
      | isTrue h2 => isTrue (by rw [h1, h2])
      | isFalse h => isFalse (fun hc => by cases hc; exact h rfl)

/-- Decidable equality for JSON object fields. -/
def Json.decEqFields : (as bs : List (String × Json)) → Decidable (as = bs)
  | [], [] => isTrue rfl
  | [], _ :: _ => isFalse (fun hc => by cases hc)
  | _ :: _, [] => isFalse (fun hc => by cases hc)
  | (k1, v1) :: xs, (k2, v2) :: ys =>
    if hk : k1 = k2 then
      match Json.decEq v1 v2 with
      | isFalse h => isFalse (fun hc => by cases hc; exact h rfl)
      | isTrue h1 =>
        match Json.decEqFields xs ys with
        | isTrue h2 => isTrue (by rw [hk, h1, h2])
        | isFalse h => isFalse (fun hc => by cases hc; exact h rfl)
    else isFalse (fun hc => by cases hc; exact hk rfl)

end

instance : DecidableEq Json := Json.decEq

/-- Wire payload: either well-formed JSON (which `json.Unmarshal` into
`interface{}` decodes to the tree) or malformed text (on which it errors). -/
inductive Bytes where
  | json (j : Json)
  | malformed (raw : String)
deriving DecidableEq

/-- A Go `error` value; `Option GoError` with `none` models the nil error. -/
structure GoError where
  message : String
deriving DecidableEq

/-- Lookup in an association list, modelling Go map indexing `m[k]`. -/
def mapGet {α : Type} (m : List (String × α)) (k : String) : Option α :=
  match m with
  | [] => none
  | (k', v) :: rest => if k' = k then some v else mapGet rest k

/-- Update/insert in an association list, modelling Go map assignment `m[k] = v`. -/
def mapPut {α : Type} (m : List (String × α)) (k : String) (v : α) : List (String × α) :=
  match m with
  | [] => [(k, v)]
  | (k', v') :: rest => if k' = k then (k, v) :: rest else (k', v') :: mapPut rest k v

/-- Lookup through a possibly-nil Go map (`nil` map reads return the zero value). -/
def nilMapGet {α : Type} (m : Option (List (String × α))) (k : String) : Option α :=
  match m with
  | none => none
  | some l => mapGet l k

/-- Modelled from the spec: the `vocab` package (not under src/) names the WoT
data types boolean/integer/number/string/array/object/null; this is the name
of the object type compared against `schema.Type` in the sources. -/
def WoTDataTypeObject : String := "object"

/-- DataSchema from the TD model: the declared data type, read-only flag and
title used by the affordances (`Type` is a Lean keyword, hence `Type'`). -/
structure DataSchema where
  Title : String := ""
  Type' : String := ""
  ReadOnly : Bool := false
deriving DecidableEq

/-- PropertyAffordance embeds a DataSchema (Go field embedding, so `ReadOnly`
is promoted from the schema). -/
structure PropertyAffordance where
  DataSchema : DataSchema := {}
deriving DecidableEq

/-- Promoted embedded field: `propAffordance.ReadOnly` in the Go sources. -/
def PropertyAffordance.ReadOnly (p : PropertyAffordance) : Bool :=
  p.DataSchema.ReadOnly

/-- EventAffordance carries a data schema for its payload. -/
structure EventAffordance where
  Title : String := ""
  Data : DataSchema := {}
deriving DecidableEq

/-- ActionAffordance carries an input schema. -/
structure ActionAffordance where
  Title : String := ""
  Input : DataSchema := {}
deriving DecidableEq

/-- Thing Description document: identity plus the three affordance maps. -/
structure ThingTD where
  Id : String := ""
  Title : String := ""
  Properties : List (String × PropertyAffordance) := []
  Events : List (String × EventAffordance) := []
  Actions : List (String × ActionAffordance) := []
deriving DecidableEq

/-- GetProperty returns the affordance or nil if name is not a property. -/
def ThingTD.GetProperty (tdoc : ThingTD) (name : String) : Option PropertyAffordance :=
  mapGet tdoc.Properties name

/-- GetEvent returns the affordance or nil if the event does not exist. -/
def ThingTD.GetEvent (tdoc : ThingTD) (name : String) : Option EventAffordance :=
  mapGet tdoc.Events name

/-- GetAction returns the affordance or nil if name is not an action. -/
def ThingTD.GetAction (tdoc : ThingTD) (name : String) : Option ActionAffordance :=
  mapGet tdoc.Actions name

/-- UpdateProperty adds or replaces a property affordance in the TD. -/
def ThingTD.UpdateProperty (tdoc : ThingTD) (name : String)
    (affordance : PropertyAffordance) : ThingTD :=
  { tdoc with Properties := mapPut tdoc.Properties name affordance }

/-- InteractionOutput pairs raw encoded bytes with the decoded native value
(`none` models a nil `interface{}`) and the schema used to decode it. -/
structure InteractionOutput where
  schema : Option DataSchema := none
  jsonEncoded : Bytes := Bytes.json Json.null
  Value : Option Json := none
deriving DecidableEq

/-- ValueAsArray: `json.Unmarshal` of the raw bytes into a slice; starts from an
empty slice and the error is discarded, so non-arrays yield the empty list. -/
def InteractionOutput.ValueAsArray (out : InteractionOutput) : List Json :=
  match out.jsonEncoded with
  | Bytes.json (Json.arr elems) => elems
  | _ => []

/-- ValueAsString: unmarshal into a string; on mismatch the zero value "". -/
def InteractionOutput.ValueAsString (out : InteractionOutput) : String :=
  match out.jsonEncoded with
  | Bytes.json (Json.str s) => s
  | _ => ""

/-- ValueAsBoolean: unmarshal into a bool; on mismatch the zero value false. -/
def InteractionOutput.ValueAsBoolean (out : InteractionOutput) : Bool :=
  match out.jsonEncoded with
  | Bytes.json (Json.bool b) => b
  | _ => false

/-- ValueAsInt: unmarshal into an int; on mismatch the zero value 0. -/
def InteractionOutput.ValueAsInt (out : InteractionOutput) : Int :=
  match out.jsonEncoded with
  | Bytes.json (Json.num n) => n
  | _ => 0

/-- ValueAsMap: unmarshal into a key-value map; on mismatch the empty map. -/
def InteractionOutput.ValueAsMap (out : InteractionOutput) : List (String × Json) :=
  match out.jsonEncoded with
  | Bytes.json (Json.obj fields) => fields
  | _ => []

/-- NewInteractionOutputFromJson decodes raw bytes against the schema.  In the
Go source the object branch runs `val := make(map[string]interface{})` with
`:=`, declaring a fresh `val` that shadows the outer one, so the outer `val`
stays nil and is what gets stored; the scalar branch stores the decoded value
or, when decoding fails, the raw bytes as a string. The construction itself
always returns an InteractionOutput. -/
def NewInteractionOutputFromJson (jsonEncoded : Bytes) (schema : Option DataSchema) :
    InteractionOutput :=
  let isObjectSchema : Bool :=
    match schema with
    | some s => s.Type' = WoTDataTypeObject
    | none => false
  if isObjectSchema then
    { jsonEncoded := jsonEncoded, schema := schema, Value := none }
  else
    match jsonEncoded with
    | Bytes.json j => { jsonEncoded := jsonEncoded, schema := schema, Value := some j }
    | Bytes.malformed raw =>
      { jsonEncoded := jsonEncoded, schema := schema, Value := some (Json.str raw) }

/-- NewInteractionOutput encodes native data to bytes (JSON marshalling of a
JSON-representable value always succeeds; a nil interface marshals to null)
and stores the native value alongside. -/
def NewInteractionOutput (data : Option Json) (schema : Option DataSchema) :
    InteractionOutput :=
  { jsonEncoded := Bytes.json (data.getD Json.null), schema := schema, Value := data }

/-- ThingStore: in-memory registry of TD documents by Thing id. -/
structure ThingStore where
  accountID : String := ""
  tdMap : List (String × ThingTD) := []
deriving DecidableEq

/-- GetIDs as written in the source: `idList := make([]string, len(ts.tdMap))`
allocates a slice already holding `len` empty strings, and the loop then
appends every key after them. -/
def ThingStore.GetIDs (ts : ThingStore) : List String :=
  let idList := List.replicate ts.tdMap.length ""
  idList ++ ts.tdMap.map Prod.fst

/-- Update adds or replaces a TD in the store under its id. -/
def ThingStore.Update (ts : ThingStore) (td : ThingTD) : ThingStore :=
  { ts with tdMap := mapPut ts.tdMap td.Id td }

/-- Opaque reference standing for a Go handler function value; the dispatch
functions report which reference (if any) was invoked. -/
structure Handler where
  ref : Nat
deriving DecidableEq

/-- ExposedThing: TD, the two handler registries (`none` models a nil Go map,
which is what `Destroy` leaves behind; `""` keys are default handlers) and the
value cache. -/
structure ExposedThing where
  DeviceID : String := ""
  TD : ThingTD := {}
  actionHandlers : Option (List (String × Handler)) := some []
  propertyWriteHandlers : Option (List (String × Handler)) := some []
  valueStore : List (String × InteractionOutput) := []
deriving DecidableEq

/-- CreateExposedThing constructs an exposed thing with fresh empty maps. -/
def CreateExposedThing (deviceID : String) (td : ThingTD) : ExposedThing :=
  { DeviceID := deviceID, TD := td, actionHandlers := some [],
    propertyWriteHandlers := some [], valueStore := [] }

/-- Destroy sets both handler maps to nil; the value cache is not touched. -/
def ExposedThing.Destroy (eThing : ExposedThing) : ExposedThing :=
  { eThing with propertyWriteHandlers := none, actionHandlers := none }

/-- SetActionHandler replaces the handler registered for the action name. -/
def ExposedThing.SetActionHandler (eThing : ExposedThing) (actionName : String)
    (actionHandler : Handler) : ExposedThing :=
  match eThing.actionHandlers with
  | none => eThing
  | some hs => { eThing with actionHandlers := some (mapPut hs actionName actionHandler) }

/-- SetPropertyWriteHandler replaces the handler registered for the property name. -/
def ExposedThing.SetPropertyWriteHandler (eThing : ExposedThing) (propName : String)
    (writeHandler : Handler) : ExposedThing :=
  match eThing.propertyWriteHandlers with
  | none => eThing
  | some hs => { eThing with propertyWriteHandlers := some (mapPut hs propName writeHandler) }

/-- Outcome of EmitPropertiesChange: the returned error, the batch handed to the
EmitPropertiesChangeHook (`none` when the hook was not invoked, i.e. no
outbound publish happened) and the updated exposed thing. -/
structure EmitOutcome where
  err : Option GoError := none
  published : Option (List (String × Json)) := none
  eThing : ExposedThing := {}
deriving DecidableEq

/-- EmitPropertiesChange filters the candidate map: a property is kept when it
has no cached value, or onlyChanges is off, or the cached value differs; kept
names must additionally have a property affordance, in which case the cache is
updated and the name joins the batch. The hook runs only for a non-empty
batch, and its error is the returned error; otherwise the error stays nil.
The hook is passed explicitly since the Go field is installed by the binding. -/
def ExposedThing.EmitPropertiesChange (eThing : ExposedThing)
    (propMap : List (String × Json)) (onlyChanges : Bool)
    (hook : List (String × Json) → Option GoError) : EmitOutcome :=
  let step : List (String × Json) × ExposedThing → String × Json →
      List (String × Json) × ExposedThing := fun acc entry =>
    let changedProps := acc.1
    let cur := acc.2
    let propName := entry.1
    let newVal := entry.2
    let lastVal := mapGet cur.valueStore propName
    let keep : Bool :=
      match lastVal with
      | none => true
      | some lastOut => !onlyChanges || decide (lastOut.Value ≠ some newVal)
    if keep then
      match mapGet cur.TD.Properties propName with
      | some propAffordance =>
        let newOut := NewInteractionOutput (some newVal) (some propAffordance.DataSchema)
        (changedProps ++ [(propName, newVal)],
          { cur with valueStore := mapPut cur.valueStore propName newOut })
      | none => (changedProps, cur)
    else (changedProps, cur)
  let folded := propMap.foldl step ([], eThing)
  if folded.1.isEmpty then
    { err := none, published := none, eThing := folded.2 }
  else
    { err := hook folded.1, published := some folded.1, eThing := folded.2 }

/-- EmitPropertyChange wraps the single property in a map and delegates with
onlyChanges = false. -/
def ExposedThing.EmitPropertyChange (eThing : ExposedThing) (propName : String)
    (newRawValue : Json) (hook : List (String × Json) → Option GoError) : EmitOutcome :=
  eThing.EmitPropertiesChange [(propName, newRawValue)] false hook

/-- handlePropertyWriteRequest: returns the write handler that got invoked, or
`none` when the request was dropped (destroyed thing, undecodable payload,
unknown property, read-only property, or no handler registered). The checks
appear in source order. -/
def ExposedThing.handlePropertyWriteRequest (eThing : ExposedThing) (propName : String)
    (message : Bytes) : Option Handler :=
  match eThing.propertyWriteHandlers with
  | none => none
  | some writeHandlers =>
    match message with
    | Bytes.malformed _ => none
    | Bytes.json _ =>
      match mapGet eThing.TD.Properties propName with
      | none => none
      | some propAffordance =>
        if propAffordance.DataSchema.ReadOnly then none
        else
          match mapGet writeHandlers propName with
          | some handler => some handler
          | none => mapGet writeHandlers ""

/-- HandleActionRequest: for a declared action, dispatch to the name-specific
action handler, falling back to the default `""` one (reads from a nil map
yield nothing, so a destroyed thing dispatches to no handler); any other name
is treated as a property write. Returns (invoked action handler, invoked write
handler). -/
def ExposedThing.HandleActionRequest (eThing : ExposedThing) (actionName : String)
    (message : Bytes) : Option Handler × Option Handler :=
  match mapGet eThing.TD.Actions actionName with
  | some _ =>
    let invoked :=
      match nilMapGet eThing.actionHandlers actionName with
      | some handler => some handler
      | none => nilMapGet eThing.actionHandlers ""
    (invoked, none)
  | none => (none, eThing.handlePropertyWriteRequest actionName message)

/-- Subscription type names from the consumedthing package. -/
def SubscriptionTypeAction : String := "action"

/-- Subscription type name for events. -/
def SubscriptionTypeEvent : String := "event"

/-- Subscription type name for property observations. -/
def SubscriptionTypeProperty : String := "property"

/-- Subscription registered by SubscribeEvent / ObserveProperty. -/
structure Subscription where
  SubType : String := ""
  Name : String := ""
  interaction : Option EventAffordance := none
  Handler : Handler := { ref := 0 }
deriving DecidableEq

/-- ConsumedThing: TD, observation and subscription registries, value cache. -/
structure ConsumedThing where
  TD : ThingTD := {}
  activeObservations : List (String × Subscription) := []
  activeSubscriptions : List (String × Subscription) := []
  valueStore : List (String × InteractionOutput) := []
deriving DecidableEq

/-- CreateConsumedThing constructs a consumed thing with fresh empty maps. -/
def CreateConsumedThing (td : ThingTD) : ConsumedThing :=
  { TD := td }

/-- Stop clears subscriptions, observations and the value cache. -/
def ConsumedThing.Stop (cThing : ConsumedThing) : ConsumedThing :=
  { cThing with activeSubscriptions := [], activeObservations := [], valueStore := [] }

/-- ObserveProperty registers the handler unless an observation already exists,
in which case it fails with NotAllowed and changes nothing. -/
def ConsumedThing.ObserveProperty (cThing : ConsumedThing) (name : String)
    (handler : Handler) : Option GoError × ConsumedThing :=
  match mapGet cThing.activeObservations name with
  | some _ => (some { message := "NotAllowed" }, cThing)
  | none =>
    let sub : Subscription :=
      { SubType := SubscriptionTypeProperty, Name := name, Handler := handler }
    (none, { cThing with activeObservations := mapPut cThing.activeObservations name sub })

/-- SubscribeEvent registers the handler unless a subscription already exists,
in which case it fails with NotAllowed and changes nothing. -/
def ConsumedThing.SubscribeEvent (cThing : ConsumedThing) (eventName : String)
    (handler : Handler) : Option GoError × ConsumedThing :=
  match mapGet cThing.activeSubscriptions eventName with
  | some _ => (some { message := "NotAllowed" }, cThing)
  | none =>
    let eventAffordance := cThing.TD.GetEvent eventName
    let sub : Subscription :=
      { SubType := SubscriptionTypeEvent, Name := eventName,
        Handler := handler, interaction := eventAffordance }
    (none, { cThing with activeSubscriptions := mapPut cThing.activeSubscriptions eventName sub })

/-- ReadProperty returns the cached value, or the nil pointer together with a
does-not-exist error when the cache has no entry. -/
def ConsumedThing.ReadProperty (cThing : ConsumedThing) (name : String) :
    Option InteractionOutput × Option GoError :=
  match mapGet cThing.valueStore name with
  | none =>
    (none, some { message := "Property " ++ name ++ " does not exist on thing " ++ cThing.TD.Id })
  | some value => (some value, none)

/-- ReadMultipleProperties assigns `res[name] = output` for every requested
name, with the error ignored — a failed ReadProperty contributes a nil entry. -/
def ConsumedThing.ReadMultipleProperties (cThing : ConsumedThing) (names : List String) :
    List (String × Option InteractionOutput) :=
  names.foldl (fun res name => mapPut res name (cThing.ReadProperty name).1) []

/-- ReadAllProperties does the same over every property name of the TD. -/
def ConsumedThing.ReadAllProperties (cThing : ConsumedThing) :
    List (String × Option InteractionOutput) :=
  (cThing.TD.Properties.map Prod.fst).foldl
    (fun res name => mapPut res name (cThing.ReadProperty name).1) []

/-- JWT access/refresh token pair returned by the auth endpoint. -/
structure JwtTokens where
  AccessToken : String := ""
  RefreshToken : String := ""
deriving DecidableEq

deriving instance DecidableEq for Except

/-- The auth client, abstracted to the observable results of its two calls. -/
structure TLSClient where
  connectWithJWTLoginResult : Except GoError String
  refreshJWTTokensResult : Except GoError JwtTokens
deriving DecidableEq

/-- The factory state the Authenticate method touches. -/
structure ConsumedThingFactory where
  accessToken : String := ""
  loginName : String := ""
  authClient : Option TLSClient := none
deriving DecidableEq

/-- Authenticate as written in ConsumedThingFactory.go (src/unnamed/part_005):
`var err error` is declared at the top and returned at the bottom, but both
branches assign their call results with `:=`, declaring fresh shadowing `err`
variables — so the returned outer `err` is never assigned and stays nil. The
access token is still only stored when the inner call succeeded. -/
def ConsumedThingFactory.Authenticate (ctFactory : ConsumedThingFactory)
    (password : String) : Option GoError × ConsumedThingFactory :=
  match ctFactory.authClient with
  | none => (none, ctFactory)
  | some ac =>
    if password ≠ "" then
      match ac.connectWithJWTLoginResult with
      | Except.ok accessToken => (none, { ctFactory with accessToken := accessToken })
      | Except.error _ => (none, ctFactory)
    else
      match ac.refreshJWTTokensResult with
      | Except.ok tokens => (none, { ctFactory with accessToken := tokens.AccessToken })
      | Except.error _ => (none, ctFactory)

/-- The earlier copy of Authenticate (src/unnamed/part_004 lines 165-180),
which returns the login/refresh error from inside each branch; given the
dereferenced auth client, it returns the new error and access token. -/
def AuthenticateAlt (ac : TLSClient) (accessToken : String) (password : String) :
    Option GoError × String :=
  if password ≠ "" then
    match ac.connectWithJWTLoginResult with
    | Except.ok tok => (none, tok)
    | Except.error e => (some e, accessToken)
  else
    match ac.refreshJWTTokensResult with
    | Except.ok tokens => (none, tokens.AccessToken)
    | Except.error e => (some e, accessToken)

/-- Lookup after update: the updated key reads the new value, others are
unchanged. -/
theorem mapGet_mapPut {α : Type} (m : List (String × α)) (k n : String) (v : α) :
    mapGet (mapPut m k v) n = if k = n then some v else mapGet m n := by
  induction m with
  | nil => by_cases h : k = n <;> simp [mapPut, mapGet, h]
  | cons hd tl ih =>
    obtain ⟨k', v'⟩ := hd
    by_cases h1 : k' = k
    · subst h1
      by_cases h2 : k' = n <;> simp [mapPut, mapGet, h2]
    · by_cases h2 : k' = n
      · subst h2
        have hk : ¬ k = k' := fun hc => h1 hc.symm
        simp [mapPut, mapGet, h1, hk]
      · simp [mapPut, mapGet, h1, h2, ih]

/-- Folding map insertions keyed by the list elements: members read the
inserted value, non-members read the initial map. -/
theorem mapGet_foldl_mapPut {α : Type} (f : String → α) (names : List String)
    (init : List (String × α)) (n : String) :
    mapGet (names.foldl (fun res name => mapPut res name (f name)) init) n =
      if n ∈ names then some (f n) else mapGet init n := by
  induction names generalizing init with
  | nil => simp
  | cons a rest ih =>
    simp only [List.foldl_cons, ih, List.mem_cons]
    by_cases hmem : n ∈ rest
    · simp [hmem]
    · by_cases ha : a = n
      · subst ha
        simp [hmem, mapGet_mapPut]
      · have hna : ¬ n = a := fun hc => ha hc.symm
        simp [hmem, hna, ha, mapGet_mapPut]

/-- ReadProperty's value component is exactly the cache lookup. -/
theorem ConsumedThing.readProperty_fst (cThing : ConsumedThing) (name : String) :
    (cThing.ReadProperty name).1 = mapGet cThing.valueStore name := by
  unfold ConsumedThing.ReadProperty
  cases mapGet cThing.valueStore name <;> rfl

/-- Shared fixture: a TD declaring the property prop1, event event1 and action
action1, mirroring the repository's createTestTD test helper. -/
def testTD : ThingTD :=
  { Id := "thing1", Title := "test thing",
    Properties := [("prop1", { DataSchema := { Title := "prop1", Type' := "string" } })],
    Events := [("event1", { Title := "event1" })],
    Actions := [("action1", { Title := "action1" })] }

/-- Probe hook whose error would be visible if the publish hook ever ran. -/
def probeHook : List (String × Json) → Option GoError :=
  fun _ => some { message := "published" }

/-- C1: the claim (with spec scenario 4 and the repository's own test
TestEmitUnknownPropertyChange) requires EmitPropertyChange on a property
missing from the TD to return a NotFound-class error. Evaluating the code at
that input shows it silently filters the property out and returns the nil
error — while indeed never invoking the EmitPropertiesChangeHook. -/
theorem C1_emitPropertyChange_unknown_returns_nil :
    ((CreateExposedThing "device1" testTD).EmitPropertyChange "notaproperty"
        (Json.str "value") probeHook).err = none ∧
    ((CreateExposedThing "device1" testTD).EmitPropertyChange "notaproperty"
        (Json.str "value") probeHook).published = none := by
  constructor <;> rfl

/-- Auth client whose login and refresh calls both fail. -/
def failingAuthClient : TLSClient :=
  { connectWithJWTLoginResult := Except.error { message := "unauthorized" },
    refreshJWTTokensResult := Except.error { message := "unauthorized" } }

/-- Factory fixture holding the failing auth client and a previous token. -/
def factoryFixture : ConsumedThingFactory :=
  { accessToken := "oldtoken", loginName := "user1", authClient := some failingAuthClient }

/-- C2: the claim requires a failed ConnectWithJWTLogin (and RefreshJWTTokens)
to surface its error from Authenticate. In ConsumedThingFactory.go the branch
results are bound with `:=`, shadowing the returned `err`, so Authenticate
returns the nil error on both failing paths (keeping the previous token); the
earlier copy of the file (AuthenticateAlt) returns the error as claimed. -/
theorem C2_authenticate_swallows_login_error :
    failingAuthClient.connectWithJWTLoginResult = Except.error { message := "unauthorized" } ∧
    (factoryFixture.Authenticate "badpass").1 = none ∧
    (factoryFixture.Authenticate "badpass").2.accessToken = "oldtoken" ∧
    (factoryFixture.Authenticate "").1 = none ∧
    (AuthenticateAlt failingAuthClient "oldtoken" "badpass").1 =
      some { message := "unauthorized" } := by
  exact ⟨rfl, rfl, rfl, rfl, rfl⟩

/-- C3 counterexample: on a consumed thing with an empty cache, the requested
name prop1 fails ReadProperty, yet the result of ReadMultipleProperties still
contains an entry for it — mapped to the nil pointer — contradicting the
claim that failing names are absent from the result map. -/
theorem C3_counterexample_failed_name_present :
    mapGet ((CreateConsumedThing testTD).ReadMultipleProperties ["prop1"]) "prop1"
      = some none ∧
    mapGet ((CreateConsumedThing testTD).ReadMultipleProperties ["prop1"]) "prop1"
      ≠ none := by
  refine ⟨rfl, ?_⟩
  intro h
  simp [ConsumedThing.ReadMultipleProperties, ConsumedThing.ReadProperty, mapPut, mapGet,
    CreateConsumedThing] at h

/-- C3 as amended: ReadMultipleProperties maps every requested name (and
ReadAllProperties every TD property name) to the cache lookup result — a nil
entry when the name has no cached value, rather than omitting the name. -/
theorem C3_every_requested_name_mapped (cThing : ConsumedThing) (names : List String)
    (n m : String) (hn : n ∈ names) (hm : m ∈ cThing.TD.Properties.map Prod.fst) :
    mapGet (cThing.ReadMultipleProperties names) n = some (mapGet cThing.valueStore n) ∧
    mapGet cThing.ReadAllProperties m = some (mapGet cThing.valueStore m) := by
  constructor
  · unfold ConsumedThing.ReadMultipleProperties
    rw [mapGet_foldl_mapPut]
    simp [hn, ConsumedThing.readProperty_fst]
  · unfold ConsumedThing.ReadAllProperties
    rw [mapGet_foldl_mapPut]
    simp [hm, ConsumedThing.readProperty_fst]

/-- Consumed-thing fixture with one cached property value. -/
def cThingFixture : ConsumedThing :=
  { TD := testTD,
    valueStore := [("prop1", NewInteractionOutput (some (Json.num 42)) none)] }

/-- C3 witness: instantiating the amended theorem at a concrete thing, with a
requested name that has no cached value and a TD property that has one. -/
theorem C3_every_requested_name_mapped_witness :
    mapGet (cThingFixture.ReadMultipleProperties ["prop1", "missing"]) "missing"
      = some (mapGet cThingFixture.valueStore "missing") ∧
    mapGet cThingFixture.ReadAllProperties "prop1"
      = some (mapGet cThingFixture.valueStore "prop1") :=
  C3_every_requested_name_mapped cThingFixture ["prop1", "missing"] "missing" "prop1"
    (by simp) (by simp [cThingFixture, testTD])

/-- Schema fixture declaring the object data type. -/
def objectSchema : DataSchema := { Type' := "object" }

/-- C4: for a valid JSON object and an object-typed schema, the claim requires
the constructed InteractionOutput's native Value to be the decoded key/value
map. In the Go source the object branch declares a fresh shadowing `val` with
`:=`, so the outer `val` that gets stored stays nil; evaluating the model at
such an input shows Value = nil. (The second half of the claim holds: the
construction is total, and a malformed payload degrades to its raw string.) -/
theorem C4_object_decode_discards_map :
    (NewInteractionOutputFromJson (Bytes.json (Json.obj [("a", Json.num 1)]))
        (some objectSchema)).Value = none ∧
    (NewInteractionOutputFromJson (Bytes.malformed "not-json")
        (some { Type' := "string" })).Value = some (Json.str "not-json") := by
  exact ⟨rfl, rfl⟩

/-- Exposed-thing fixture with one cached property value. -/
def eThingFixture : ExposedThing :=
  { CreateExposedThing "device1" testTD with
    valueStore := [("prop1", NewInteractionOutput (some (Json.str "v1")) none)] }

/-- C5 counterexample: destroying an ExposedThing that holds a cached value
leaves the value cache non-empty, contradicting the claim that destruction
empties the cache for ExposedThing and ConsumedThing alike. -/
theorem C5_counterexample_destroy_keeps_cache :
    eThingFixture.Destroy.valueStore ≠ [] := by
  intro h
  simp [ExposedThing.Destroy, eThingFixture, CreateExposedThing] at h

/-- C5 as amended: ConsumedThing.Stop empties the value cache (and both
subscription registries), while ExposedThing.Destroy clears only the two
handler maps and leaves its value cache untouched. -/
theorem C5_destruction_cache_behavior (cThing : ConsumedThing) (eThing : ExposedThing) :
    cThing.Stop.valueStore = [] ∧
    cThing.Stop.activeSubscriptions = [] ∧
    cThing.Stop.activeObservations = [] ∧
    eThing.Destroy.valueStore = eThing.valueStore ∧
    eThing.Destroy.actionHandlers = none ∧
    eThing.Destroy.propertyWriteHandlers = none :=
  ⟨rfl, rfl, rfl, rfl, rfl, rfl⟩

/-- C6: on a thing with no existing registration for the name, a first
SubscribeEvent succeeds; a second one returns the NotAllowed error, leaves the
state unchanged and thus keeps the first handler active. ObserveProperty obeys
the same single-subscriber rule on its observation registry. -/
theorem C6_single_subscriber_per_name (cThing : ConsumedThing) (n : String)
    (h1 h2 : Handler)
    (hsub : mapGet cThing.activeSubscriptions n = none)
    (hobs : mapGet cThing.activeObservations n = none) :
    (cThing.SubscribeEvent n h1).1 = none ∧
    ((cThing.SubscribeEvent n h1).2.SubscribeEvent n h2).1 =
      some { message := "NotAllowed" } ∧
    ((cThing.SubscribeEvent n h1).2.SubscribeEvent n h2).2 =
      (cThing.SubscribeEvent n h1).2 ∧
    (mapGet ((cThing.SubscribeEvent n h1).2.SubscribeEvent n h2).2.activeSubscriptions
        n).map Subscription.Handler = some h1 ∧
    (cThing.ObserveProperty n h1).1 = none ∧
    ((cThing.ObserveProperty n h1).2.ObserveProperty n h2).1 =
      some { message := "NotAllowed" } ∧
    ((cThing.ObserveProperty n h1).2.ObserveProperty n h2).2 =
      (cThing.ObserveProperty n h1).2 ∧
    (mapGet ((cThing.ObserveProperty n h1).2.ObserveProperty n h2).2.activeObservations
        n).map Subscription.Handler = some h1 := by
  simp [ConsumedThing.SubscribeEvent, ConsumedThing.ObserveProperty, hsub, hobs,
    mapGet_mapPut]

/-- C6 witness: the single-subscriber rule instantiated on a fresh consumed
thing for the event name event1 with two distinct handlers. -/
theorem C6_single_subscriber_per_name_witness :
    ((CreateConsumedThing testTD).SubscribeEvent "event1" { ref := 1 }).1 = none ∧
    (((CreateConsumedThing testTD).SubscribeEvent "event1"
        { ref := 1 }).2.SubscribeEvent "event1" { ref := 2 }).1 =
      some { message := "NotAllowed" } ∧
    (((CreateConsumedThing testTD).SubscribeEvent "event1"
        { ref := 1 }).2.SubscribeEvent "event1" { ref := 2 }).2 =
      ((CreateConsumedThing testTD).SubscribeEvent "event1" { ref := 1 }).2 ∧
    (mapGet (((CreateConsumedThing testTD).SubscribeEvent "event1"
        { ref := 1 }).2.SubscribeEvent "event1" { ref := 2 }).2.activeSubscriptions
        "event1").map Subscription.Handler = some { ref := 1 } ∧
    ((CreateConsumedThing testTD).ObserveProperty "event1" { ref := 1 }).1 = none ∧
    (((CreateConsumedThing testTD).ObserveProperty "event1"
        { ref := 1 }).2.ObserveProperty "event1" { ref := 2 }).1 =
      some { message := "NotAllowed" } ∧
    (((CreateConsumedThing testTD).ObserveProperty "event1"
        { ref := 1 }).2.ObserveProperty "event1" { ref := 2 }).2 =
      ((CreateConsumedThing testTD).ObserveProperty "event1" { ref := 1 }).2 ∧
    (mapGet (((CreateConsumedThing testTD).ObserveProperty "event1"
        { ref := 1 }).2.ObserveProperty "event1" { ref := 2 }).2.activeObservations
        "event1").map Subscription.Handler = some { ref := 1 } :=
  C6_single_subscriber_per_name (CreateConsumedThing testTD) "event1"
    { ref := 1 } { ref := 2 } rfl rfl

/-- C7: when the TD declares the named property read-only, a property write
request dispatches to no write handler — neither the name-specific nor the
default one — whether it arrives directly at handlePropertyWriteRequest or is
routed there by HandleActionRequest, for any payload; the request is dropped
without an error surfacing to the requester (the function reports nothing). -/
theorem C7_readonly_write_never_dispatched (eThing : ExposedThing) (n : String)
    (message : Bytes) (aff : PropertyAffordance)
    (hprop : mapGet eThing.TD.Properties n = some aff)
    (hro : aff.DataSchema.ReadOnly = true) :
    eThing.handlePropertyWriteRequest n message = none ∧
    (eThing.HandleActionRequest n message).2 = none := by
  have hwrite : eThing.handlePropertyWriteRequest n message = none := by
    unfold ExposedThing.handlePropertyWriteRequest
    cases eThing.propertyWriteHandlers with
    | none => rfl
    | some writeHandlers =>
      cases message with
      | malformed raw => rfl
      | json j => rw [hprop]; simp [hro]
  refine ⟨hwrite, ?_⟩
  unfold ExposedThing.HandleActionRequest
  cases hact : mapGet eThing.TD.Actions n with
  | some a => rfl
  | none => simpa using hwrite

/-- TD fixture whose property roprop is read-only. -/
def roTD : ThingTD :=
  { Id := "thing1",
    Properties := [("roprop", { DataSchema := { Type' := "string", ReadOnly := true } })] }

/-- C7 witness: a read-only property write request on a concrete thing (with a
write handler registered for that very name) dispatches to no handler. -/
theorem C7_readonly_write_never_dispatched_witness :
    ((CreateExposedThing "device1" roTD).SetPropertyWriteHandler "roprop"
        { ref := 7 }).handlePropertyWriteRequest "roprop" (Bytes.json (Json.str "x"))
      = none ∧
    (((CreateExposedThing "device1" roTD).SetPropertyWriteHandler "roprop"
        { ref := 7 }).HandleActionRequest "roprop" (Bytes.json (Json.str "x"))).2
      = none :=
  C7_readonly_write_never_dispatched
    ((CreateExposedThing "device1" roTD).SetPropertyWriteHandler "roprop" { ref := 7 })
    "roprop" (Bytes.json (Json.str "x"))
    { DataSchema := { Type' := "string", ReadOnly := true } } rfl rfl

/-- C8: after Destroy both handler maps are nil; every subsequent action
request and property write request — any name, any payload — dispatches to no
handler (reads from the nil Go maps yield the zero value, and the write path
returns at its explicit destroyed-check), so nothing panics. -/
theorem C8_destroyed_thing_requests_noop (eThing : ExposedThing) (name : String)
    (message : Bytes) :
    eThing.Destroy.HandleActionRequest name message = (none, none) ∧
    eThing.Destroy.handlePropertyWriteRequest name message = none := by
  have hwrite : eThing.Destroy.handlePropertyWriteRequest name message = none := rfl
  refine ⟨?_, hwrite⟩
  unfold ExposedThing.HandleActionRequest
  cases hact : mapGet eThing.Destroy.TD.Actions name with
  | some a => rfl
  | none => simpa using hwrite

/-- C9: constructing an InteractionOutput from native data and reading it back
through the accessor matching the value's JSON type returns the value
unchanged, for every schema. -/
theorem C9_native_roundtrip (s : String) (b : Bool) (i : Int) (elems : List Json)
    (fields : List (String × Json)) (sch1 sch2 sch3 sch4 sch5 : Option DataSchema) :
    (NewInteractionOutput (some (Json.str s)) sch1).ValueAsString = s ∧
    (NewInteractionOutput (some (Json.bool b)) sch2).ValueAsBoolean = b ∧
    (NewInteractionOutput (some (Json.num i)) sch3).ValueAsInt = i ∧
    (NewInteractionOutput (some (Json.arr elems)) sch4).ValueAsArray = elems ∧
    (NewInteractionOutput (some (Json.obj fields)) sch5).ValueAsMap = fields :=
  ⟨rfl, rfl, rfl, rfl, rfl⟩

/-- Store fixture holding exactly one TD, with id thing1. -/
def storeFixture : ThingStore :=
  { accountID := "acc", tdMap := [("thing1", { Id := "thing1" })] }

/-- C10: the claim requires GetIDs on a store of n documents to return exactly
the n ids. The source allocates the slice with `make([]string, len)` — n empty
strings — and then appends the n keys, so a one-entry store yields a length-2
list starting with an empty-string placeholder. -/
theorem C10_getids_prepends_empty_placeholders :
    storeFixture.GetIDs = ["", "thing1"] ∧
    storeFixture.GetIDs.length = 2 ∧
    "" ∈ storeFixture.GetIDs := by
  refine ⟨rfl, rfl, ?_⟩
  simp [storeFixture, ThingStore.GetIDs]
